import Mathlib

/-!
Shallow embedding of the GMTI PyQt visualizer core
(`pyqt_visualizer/main.py` and `pyqt_visualizer/geometry.py`):
metadata extraction, elevation resolution, coordinate projection,
scene framing / zoom, and the per-tick render-object synchronizer
for detection spheres and labels.

Numeric detection/metadata values are modelled as rationals where the
source only does field arithmetic and comparisons, and as reals where
trigonometry (`cos`, `sin`, `asin`) is involved.
-/

namespace GMTIViz

/-- A Python value stored in a metadata dictionary, classified by how
`float(raw)` behaves on it: `num q` is an int/float/bool (conversion
succeeds, yielding `q`); `strVal p` is a string (conversion succeeds
with value `q` iff `p = some q`, else raises `ValueError`); `pyNone`
is `None`; `other` is any value on which `float` raises `TypeError`. -/
inductive PyVal where
  | num (q : ℚ)
  | strVal (p : Option ℚ)
  | pyNone
  | other
deriving DecidableEq

/-- `float(raw)` wrapped in `try/except`: `some q` when conversion
succeeds, `none` when it raises `TypeError` or `ValueError`. -/
def pyFloat : PyVal → Option ℚ
  | PyVal.num q => some q
  | PyVal.strVal p => p
  | PyVal.pyNone => none
  | PyVal.other => none

/-- A metadata dictionary, as an association list of string keys. -/
abbrev Metadata := List (String × PyVal)

/-- `metadata.get(primary, metadata.get(fallback))`. -/
def mdGet2 (md : Metadata) (primary fallback : String) : Option PyVal :=
  match List.lookup primary md with
  | some v => some v
  | none => List.lookup fallback md

/-- `PyQtVisualizer._extract_area_value`: look up `primary` with
`fallback` as the second choice; if the result is absent or `None`,
or `float(raw)` raises, return `default`. -/
def extract_area_value (md : Metadata) (primary fallback : String) (default : ℚ) : ℚ :=
  match mdGet2 md primary fallback with
  | none => default
  | some PyVal.pyNone => default
  | some raw =>
    match pyFloat raw with
    | some q => q
    | none => default

/-- Metadata key constants used by the visualizer. -/
def kAreaWidthKm : String := "area_width_km"

def kAreaWidth : String := "area_width"

def kAreaHeightKm : String := "area_height_km"

def kAreaHeight : String := "area_height"

def kAltitudeM : String := "altitude_m"

def kPlatformAltitudeM : String := "platform_altitude_m"

/-- One detection record, with the numeric fields the core reads
(after the `record.get(key, 0)` defaulting done at each use site). -/
structure DetRecord where
  range : ℚ
  bearing_deg : ℚ
  elevation_deg : ℚ
  doppler : ℚ
  snr : ℚ
deriving DecidableEq

/-- The platform altitude used by the resolver and the pipeline:
`_extract_area_value(metadata, "altitude_m", "platform_altitude_m", 4000.0)`. -/
def resolved_altitude (md : Metadata) : ℚ :=
  extract_area_value md kAltitudeM kPlatformAltitudeM 4000

/-- `math.radians`: degrees to radians. -/
noncomputable def radians (x : ℝ) : ℝ := x * Real.pi / 180

/-- `math.degrees`: radians to degrees. -/
noncomputable def degrees (x : ℝ) : ℝ := x * 180 / Real.pi

/-- `PyQtVisualizer._resolve_detection_elevation`: trust the stored
elevation when `|elevation_deg| > 1e-3`; otherwise, if `range <= 0` or
the resolved altitude is `<= 0`, return the stored value unchanged;
otherwise return `-degrees(asin(min(altitude / range, 1.0)))`. -/
noncomputable def resolve_detection_elevation (record : DetRecord) (md : Metadata) : ℝ :=
  if 1 / 1000 < |record.elevation_deg| then (record.elevation_deg : ℝ)
  else if record.range ≤ 0 ∨ resolved_altitude md ≤ 0 then (record.elevation_deg : ℝ)
  else -degrees (Real.arcsin (min ((resolved_altitude md : ℝ) / (record.range : ℝ)) 1))

/-! ### Geometry projection (`geometry.py`) -/

/-- View mode selector: `"polar"` or `"cartesian"`. -/
inductive ViewMode where
  | polar
  | cartesian
deriving DecidableEq

/-- The record the projector reads; the caller passes the original
detection with its `elevation_deg` overwritten by the resolver. -/
structure ProjRecord where
  range : ℝ
  doppler : ℝ
  bearing_deg : ℝ
  elevation_deg : ℝ

/-- `normalized_doppler` from `project_detection_coordinates`:
`max(-1.0, min(1.0, doppler / max_doppler)) if max_doppler > 0 else 0.0`. -/
noncomputable def normalized_doppler (doppler max_doppler : ℝ) : ℝ :=
  if 0 < max_doppler then max (-1) (min 1 (doppler / max_doppler)) else 0

/-- `horizontal_range` from `project_detection_coordinates`:
`rng * cos(elevation_rad)`, then `min(max(·, 0.0), area_radius)`. -/
noncomputable def horizontal_range_clamped (rng elevation_deg area_radius : ℝ) : ℝ :=
  min (max (rng * Real.cos (radians elevation_deg)) 0) area_radius

/-- `geometry.project_detection_coordinates` (the metadata argument is
accepted but unused, as in the source). -/
noncomputable def project_detection_coordinates (record : ProjRecord) (_md : Metadata)
    (view_mode : ViewMode) (half_span_x_m half_span_y_m area_radius
      max_range_value max_doppler : ℝ) : ℝ × ℝ :=
  let hr := horizontal_range_clamped record.range record.elevation_deg area_radius
  match view_mode with
  | ViewMode.polar =>
      (hr * Real.cos (radians record.bearing_deg), hr * Real.sin (radians record.bearing_deg))
  | ViewMode.cartesian =>
      ((record.range / max_range_value) * half_span_x_m,
       normalized_doppler record.doppler max_doppler * half_span_y_m)

/-! ### Scene framing (`_update_3d_view`, framing part) -/

/-- `half_span_x_km = max(_extract_area_value(md, "area_width_km", "area_width", 10.0), 10.0)`. -/
def half_span_x_km (md : Metadata) : ℚ :=
  max (extract_area_value md kAreaWidthKm kAreaWidth 10) 10

/-- `half_span_y_km = max(_extract_area_value(md, "area_height_km", "area_height", 10.0), 10.0)`. -/
def half_span_y_km (md : Metadata) : ℚ :=
  max (extract_area_value md kAreaHeightKm kAreaHeight 10) 10

/-- `grid_width = half_span_x_km * 1000.0 * 2.0` (meters). -/
def grid_width (md : Metadata) : ℚ := half_span_x_km md * 1000 * 2

/-- `grid_height = half_span_y_km * 1000.0 * 2.0` (meters). -/
def grid_height (md : Metadata) : ℚ := half_span_y_km md * 1000 * 2

/-- `axis_z = max(grid_width, grid_height) * 0.5`. -/
def axis_z (md : Metadata) : ℚ := max (grid_width md) (grid_height md) * (1 / 2)

/-- `new_target_distance = max(grid_width, grid_height, axis_z, 6000.0)`. -/
def new_target_distance (md : Metadata) : ℚ :=
  max (max (max (grid_width md) (grid_height md)) (axis_z md)) 6000

/-- `PyQtVisualizer._apply_zoom`: the camera distance written to the
rendering surface, as a function of the zoom state and target distance. -/
def apply_zoom (manual_zoom_active : Bool) (camera_zoom_factor target_distance : ℚ) : ℚ :=
  if manual_zoom_active then max (target_distance * camera_zoom_factor) 3000
  else max target_distance 3000

/-- The values `self.target_distance` can hold in a session: its
initializer value `12000.0`, or the value written by any
`_update_3d_view` call. -/
inductive ReachableTarget : ℚ → Prop
  | init : ReachableTarget 12000
  | step (t : ℚ) (md : Metadata) : ReachableTarget t → ReachableTarget (new_target_distance md)

/-! ### Frame projection pipeline (`_update_3d_view`, detection part) -/

/-- `max(iterable, default=d)` on rationals. -/
def pyMax (xs : List ℚ) (default : ℚ) : ℚ :=
  match xs with
  | [] => default
  | x :: rest => rest.foldl max x

/-- `visible_records = records[:256]`. -/
def visible_records (records : List DetRecord) : List DetRecord := records.take 256

/-- The Doppler normalization denominator of `_update_3d_view`:
`max(max((abs(doppler) for record in records), default=0.5), 0.5)`.
Note the generator runs over the full `records` list. -/
def max_doppler_denom (records : List DetRecord) : ℚ :=
  max (pyMax (records.map (fun r => |r.doppler|)) (1 / 2)) (1 / 2)

/-- The range normalization denominator of `_update_3d_view`:
`max(max((record range over visible_records), default=1.0), 1.0)`,
computed over the capped `visible_records` list. -/
def max_range_denom (records : List DetRecord) : ℚ :=
  max (pyMax ((visible_records records).map (fun r => r.range)) 1) 1

/-- The world position `(x, y, z)` computed for one detection in the
loop of `_update_3d_view`: project the record with its elevation
overwritten by the resolver, and set
`z = max(0.0, platform_altitude + rng * sin(radians(elevation)))`. -/
noncomputable def detection_position (md : Metadata) (mode : ViewMode)
    (half_span_x_m half_span_y_m area_radius max_range_value max_doppler : ℝ)
    (record : DetRecord) : ℝ × ℝ × ℝ :=
  let elevation := resolve_detection_elevation record md
  let xy := project_detection_coordinates
    ⟨(record.range : ℝ), (record.doppler : ℝ), (record.bearing_deg : ℝ), elevation⟩
    md mode half_span_x_m half_span_y_m area_radius max_range_value max_doppler
  (xy.1, xy.2, max 0 ((resolved_altitude md : ℝ) + (record.range : ℝ) * Real.sin (radians elevation)))

/-- The `positions` list built by `_update_3d_view` for a non-empty
detection list: one world position per record of the capped batch,
with `area_radius = half_span_x_m` and the shared denominators. -/
noncomputable def pipeline_positions (records : List DetRecord) (md : Metadata)
    (mode : ViewMode) : List (ℝ × ℝ × ℝ) :=
  (visible_records records).map
    (detection_position md mode ((half_span_x_km md * 1000 : ℚ) : ℝ)
      ((half_span_y_km md * 1000 : ℚ) : ℝ) ((half_span_x_km md * 1000 : ℚ) : ℝ)
      ((max_range_denom records : ℚ) : ℝ) ((max_doppler_denom records : ℚ) : ℝ))

/-- One entry of `detection_infos`: 1-based ordinal, range, bearing
and resolved elevation. -/
structure DetectionInfo where
  id : ℕ
  rng : ℚ
  bearing : ℚ
  elevation : ℝ

/-- The `detection_infos` list built by `_update_3d_view`:
`enumerate(visible_records, start=1)`. -/
noncomputable def pipeline_infos (records : List DetRecord) (md : Metadata) :
    List DetectionInfo :=
  (List.enumFrom 1 (visible_records records)).map
    (fun p => ⟨p.1, p.2.range, p.2.bearing_deg, resolve_detection_elevation p.2 md⟩)

/-- The `sizes` list built by `_update_3d_view`:
`np.clip(3 + snr * 0.16, 4, 18)` per record of the capped batch. -/
def pipeline_sizes (records : List DetRecord) : List ℚ :=
  (visible_records records).map (fun r => min (max (3 + r.snr * (16 / 100)) 4) 18)

/-! ### Render-object synchronizer
(`_update_detection_spheres` / `_clear_detection_spheres`) -/

/-- The live per-detection visuals owned by the view: the
`detection_spheres` list (sphere positions) and the
`detection_labels` list (label position and detection info). -/
structure RenderState where
  detection_spheres : List (ℝ × ℝ × ℝ)
  detection_labels : List ((ℝ × ℝ × ℝ) × DetectionInfo)

/-- Counts of `addItem` (creates) and `removeItem` (destroys) calls
issued against the GL view during one synchronization pass. -/
structure SyncOps where
  creates : ℕ
  destroys : ℕ

/-- `sphere_radius = 5.0`. -/
def sphere_radius : ℚ := 5

/-- `text_offset = sphere_radius + 2.0`. -/
def text_offset : ℚ := sphere_radius + 2

/-- `_clear_detection_spheres`: pop and remove every sphere, then
every label; returns the new state and the number of removed items. -/
def clear_detection_spheres (s : RenderState) : RenderState × ℕ :=
  (⟨[], []⟩, s.detection_spheres.length + s.detection_labels.length)

/-- `_update_detection_spheres`: clear all existing spheres and
labels, then for each `(position, info)` pair of
`zip(positions, infos)` add one sphere at the position and one label
at the position raised by `text_offset`. -/
def update_detection_spheres (s : RenderState) (positions : List (ℝ × ℝ × ℝ))
    (infos : List DetectionInfo) : RenderState × SyncOps :=
  let destroyed := (clear_detection_spheres s).2
  let pairs := positions.zip infos
  (⟨pairs.map (fun p => p.1),
    pairs.map (fun p => ((p.1.1, p.1.2.1, p.1.2.2 + (text_offset : ℚ)), p.2))⟩,
   ⟨2 * pairs.length, destroyed⟩)

/-- The detection-sphere effect of one `_update_3d_view` call: an
empty detection list clears all spheres and labels (the placeholder
scatter point is not a sphere); otherwise the synchronizer rebuilds
the sphere and label sets from the pipeline output. -/
noncomputable def update_3d_view (s : RenderState) (records : List DetRecord)
    (md : Metadata) (mode : ViewMode) : RenderState × SyncOps :=
  if records.isEmpty then
    ((clear_detection_spheres s).1, ⟨0, (clear_detection_spheres s).2⟩)
  else
    update_detection_spheres s (pipeline_positions records md mode)
      (pipeline_infos records md)

/-- Process a sequence of telemetry frames (each a detection list)
against a fixed metadata dictionary and view mode, threading the
render state. -/
noncomputable def run_frames (s : RenderState) (frames : List (List DetRecord))
    (md : Metadata) (mode : ViewMode) : RenderState :=
  frames.foldl (fun st recs => (update_3d_view st recs md mode).1) s

/-! ### Concrete inputs used by witnesses and counterexamples -/

/-- Concrete metadata: a 10 km by 10 km scenario. -/
def mdTen : Metadata := [(kAreaWidthKm, PyVal.num 10), (kAreaHeightKm, PyVal.num 10)]

/-- Concrete metadata: a 1 km by 1 km scenario. -/
def mdOne : Metadata := [(kAreaWidthKm, PyVal.num 1), (kAreaHeightKm, PyVal.num 1)]

/-- A detection at 1 km range with all other fields zero. -/
def recZero : DetRecord := ⟨1000, 0, 0, 0, 0⟩

/-- A detection with Doppler 100, otherwise like `recZero`. -/
def recFast : DetRecord := ⟨1000, 0, 0, 100, 0⟩

/-- 257 detections: 256 with Doppler 0 followed by one with Doppler
100, so the 257th and last record holds the only non-zero Doppler. -/
def overCapRecords : List DetRecord := List.replicate 256 recZero ++ [recFast]

end GMTIViz

namespace GMTIViz

/-! ## Theorems -/

/-- C1 counterexample: for a 1 km by 1 km scenario the target camera
distance is 20000, not 6000: the half-spans are floored at 10 km first,
so the 6000 floor never binds. -/
theorem scene_framer_1km_not_6000 : new_target_distance mdOne ≠ 6000 := by
  have hw : extract_area_value mdOne kAreaWidthKm kAreaWidth 10 = 1 := by rfl
  have hh : extract_area_value mdOne kAreaHeightKm kAreaHeight 10 = 1 := by rfl
  norm_num [new_target_distance, grid_width, grid_height, axis_z, half_span_x_km,
    half_span_y_km, hw, hh, max_def]

/-- C1 (amended): for any metadata with `area_width_km = area_height_km = 10`
the target camera distance is `max(20000, 20000, 10000, 6000) = 20000`; for
any metadata with `area_width_km = area_height_km = 1` the half-spans are
floored at 10 km, so the target distance is also `20000` (in particular it
is at least 6000, but the 6000 floor is not what determines it). -/
theorem scene_framer_target_distance (mdA mdB : Metadata)
    (hwA : List.lookup kAreaWidthKm mdA = some (PyVal.num 10))
    (hhA : List.lookup kAreaHeightKm mdA = some (PyVal.num 10))
    (hwB : List.lookup kAreaWidthKm mdB = some (PyVal.num 1))
    (hhB : List.lookup kAreaHeightKm mdB = some (PyVal.num 1)) :
    new_target_distance mdA = 20000 ∧
      new_target_distance mdB = 20000 ∧ 6000 ≤ new_target_distance mdB := by
  have hwA2 : extract_area_value mdA kAreaWidthKm kAreaWidth 10 = 10 := by
    simp [extract_area_value, mdGet2, hwA, pyFloat]
  have hhA2 : extract_area_value mdA kAreaHeightKm kAreaHeight 10 = 10 := by
    simp [extract_area_value, mdGet2, hhA, pyFloat]
  have hwB2 : extract_area_value mdB kAreaWidthKm kAreaWidth 10 = 1 := by
    simp [extract_area_value, mdGet2, hwB, pyFloat]
  have hhB2 : extract_area_value mdB kAreaHeightKm kAreaHeight 10 = 1 := by
    simp [extract_area_value, mdGet2, hhB, pyFloat]
  refine ⟨?_, ?_, ?_⟩ <;>
    norm_num [new_target_distance, grid_width, grid_height, axis_z, half_span_x_km,
      half_span_y_km, hwA2, hhA2, hwB2, hhB2, max_def]

/-- C1 witness: the two parts of the amended claim evaluated on the
concrete 10 km and 1 km metadata dictionaries. -/
theorem scene_framer_target_distance_witness :
    new_target_distance mdTen = 20000 ∧
      new_target_distance mdOne = 20000 ∧ 6000 ≤ new_target_distance mdOne :=
  scene_framer_target_distance mdTen mdOne rfl rfl rfl rfl

/-- Every reachable `target_distance` is at least 3000: the initializer
writes 12000 and every reframe writes at least 6000. -/
theorem reachable_target_ge_3000 (t : ℚ) (h : ReachableTarget t) : 3000 ≤ t := by
  induction h with
  | init => norm_num
  | step t md _ _ =>
      have : (6000 : ℚ) ≤ new_target_distance md := le_max_right _ _
      linarith

/-- C6: in every reachable session state, the zoom rule with
`manual_active = false` writes exactly the current target distance, and
with `manual_active = true` writes `max(target_distance * factor, 3000)`. -/
theorem zoom_rule_tracks_target (t f : ℚ) (ht : ReachableTarget t) :
    apply_zoom false f t = t ∧ apply_zoom true f t = max (t * f) 3000 := by
  refine ⟨?_, rfl⟩
  have h := reachable_target_ge_3000 t ht
  simp only [apply_zoom, Bool.false_eq_true, if_false]
  exact max_eq_left (by linarith)

/-- C6 witness: the zoom rule at the initial target distance 12000 with
factor 1. -/
theorem zoom_rule_tracks_target_witness :
    apply_zoom false 1 12000 = 12000 ∧ apply_zoom true 1 12000 = max (12000 * 1) 3000 :=
  zoom_rule_tracks_target 12000 1 ReachableTarget.init

/-- C8: numeric metadata extraction returns the supplied default whenever
the primary and fallback keys are both absent, or the stored value is one
on which `float()` raises; the Lean function is total, so no error is
raised or propagated. -/
theorem extract_area_value_defaults (md : Metadata) (primary fallback : String)
    (default : ℚ)
    (h : mdGet2 md primary fallback = none ∨
      ∃ v, mdGet2 md primary fallback = some v ∧ pyFloat v = none) :
    extract_area_value md primary fallback default = default := by
  rcases h with h | ⟨v, hv, hpv⟩
  · simp [extract_area_value, h]
  · cases v with
    | num q => simp [pyFloat] at hpv
    | strVal p => simp [pyFloat] at hpv; simp [extract_area_value, hv, pyFloat, hpv]
    | pyNone => simp [extract_area_value, hv]
    | other => simp [extract_area_value, hv, pyFloat]

/-- C8 witness: altitude extraction on a metadata dictionary storing a
non-numeric string under the primary key returns the default 4000. -/
theorem extract_area_value_defaults_witness :
    extract_area_value [(kAltitudeM, PyVal.strVal none)] kAltitudeM kPlatformAltitudeM
      4000 = 4000 :=
  extract_area_value_defaults _ _ _ _ (Or.inr ⟨PyVal.strVal none, rfl, rfl⟩)

end GMTIViz

namespace GMTIViz

/-- Under `0 < altitude < range` and a stored elevation of zero, the
resolver lands in the depression-angle branch and the `min(·, 1.0)`
guard is inert. -/
theorem resolve_depression_eq (md : Metadata) (b d s A : ℚ)
    (hA : resolved_altitude md = A) (r : ℚ) (h0 : 0 < A) (hr : A < r) :
    resolve_detection_elevation ⟨r, b, 0, d, s⟩ md
      = -degrees (Real.arcsin ((A : ℝ) / (r : ℝ))) := by
  have hrpos : (0 : ℚ) < r := lt_trans h0 hr
  rw [resolve_detection_elevation]
  simp only [hA]
  rw [if_neg (by norm_num), if_neg (by push_neg; exact ⟨hrpos, h0⟩)]
  have hle : (A : ℝ) / (r : ℝ) ≤ 1 := by
    rw [div_le_one (by exact_mod_cast hrpos)]
    exact_mod_cast le_of_lt hr
  rw [min_eq_left hle]

/-- `degrees (arcsin x)` is positive for positive `x`. -/
theorem degrees_arcsin_pos (x : ℝ) (h0 : 0 < x) :
    0 < degrees (Real.arcsin x) := by
  have := Real.arcsin_pos.mpr h0
  rw [degrees]
  positivity

/-- C5: with a stored elevation of exactly zero and resolved altitude
`A`, for every range `r` with `r > A > 0` the resolver returns the
strictly negative angle `-degrees(asin(A / r))`, whose magnitude
strictly increases as the range decreases toward `A`; and it returns
exactly zero when `r <= 0` or `A <= 0`. -/
theorem resolver_depression_angle (md : Metadata) (b d s A : ℚ)
    (hA : resolved_altitude md = A) :
    (∀ r : ℚ, 0 < A → A < r →
      resolve_detection_elevation ⟨r, b, 0, d, s⟩ md
          = -degrees (Real.arcsin ((A : ℝ) / (r : ℝ))) ∧
        resolve_detection_elevation ⟨r, b, 0, d, s⟩ md < 0) ∧
    (∀ rA rB : ℚ, 0 < A → A < rA → rA < rB →
      |resolve_detection_elevation ⟨rB, b, 0, d, s⟩ md|
        < |resolve_detection_elevation ⟨rA, b, 0, d, s⟩ md|) ∧
    (∀ r : ℚ, r ≤ 0 ∨ A ≤ 0 → resolve_detection_elevation ⟨r, b, 0, d, s⟩ md = 0) := by
  refine ⟨?_, ?_, ?_⟩
  · intro r h0 hr
    have heq := resolve_depression_eq md b d s A hA r h0 hr
    refine ⟨heq, ?_⟩
    rw [heq, neg_lt_zero]
    apply degrees_arcsin_pos
    have : (0 : ℝ) < (A : ℝ) := by exact_mod_cast h0
    have : (0 : ℝ) < (r : ℝ) := by exact_mod_cast lt_trans h0 hr
    positivity
  · intro rA rB h0 hrA hrB
    have hrApos : (0 : ℚ) < rA := lt_trans h0 hrA
    have hrBpos : (0 : ℚ) < rB := lt_trans hrApos hrB
    have heqA := resolve_depression_eq md b d s A hA rA h0 hrA
    have heqB := resolve_depression_eq md b d s A hA rB h0 (lt_trans hrA hrB)
    have hApos : (0 : ℝ) < (A : ℝ) := by exact_mod_cast h0
    have hrAposR : (0 : ℝ) < (rA : ℝ) := by exact_mod_cast hrApos
    have hrBposR : (0 : ℝ) < (rB : ℝ) := by exact_mod_cast hrBpos
    have hfracB : (0 : ℝ) < (A : ℝ) / (rB : ℝ) := by positivity
    have hfracA1 : (A : ℝ) / (rA : ℝ) ≤ 1 := by
      rw [div_le_one hrAposR]; exact_mod_cast le_of_lt hrA
    have hfracB1 : (A : ℝ) / (rB : ℝ) ≤ 1 := by
      rw [div_le_one hrBposR]
      exact_mod_cast le_of_lt (lt_trans hrA hrB)
    have hlt : (A : ℝ) / (rB : ℝ) < (A : ℝ) / (rA : ℝ) := by
      apply div_lt_div_of_pos_left hApos hrAposR
      exact_mod_cast hrB
    have harc : Real.arcsin ((A : ℝ) / (rB : ℝ)) < Real.arcsin ((A : ℝ) / (rA : ℝ)) := by
      apply Real.strictMonoOn_arcsin
      · exact ⟨by linarith, hfracB1⟩
      · exact ⟨by linarith [div_nonneg hApos.le hrAposR.le], hfracA1⟩
      · exact hlt
    have hdegB : 0 ≤ degrees (Real.arcsin ((A : ℝ) / (rB : ℝ))) :=
      (degrees_arcsin_pos _ hfracB).le
    have hdegA : 0 ≤ degrees (Real.arcsin ((A : ℝ) / (rA : ℝ))) := by
      apply (degrees_arcsin_pos _ ?_).le
      positivity
    rw [heqA, heqB, abs_neg, abs_neg, abs_of_nonneg hdegB, abs_of_nonneg hdegA]
    rw [degrees, degrees]
    have hpi : (0 : ℝ) < Real.pi := Real.pi_pos
    gcongr
  · intro r hdeg
    rw [resolve_detection_elevation]
    simp only [hA]
    rw [if_neg (by norm_num), if_pos hdeg]
    norm_num

/-- C5 witness: with empty metadata (resolved altitude 4000) and a
5000 m range, the resolver returns a strictly negative angle. -/
theorem resolver_depression_angle_witness :
    resolve_detection_elevation ⟨5000, 0, 0, 0, 0⟩ [] < 0 :=
  ((resolver_depression_angle [] 0 0 0 4000 rfl).1 5000 (by norm_num) (by norm_num)).2

/-- C9: with a stored elevation of magnitude in `(0, 1e-3]` and
degenerate geometry (`range <= 0` or resolved altitude `<= 0`), the
resolver returns the stored elevation itself, which is not zero. -/
theorem resolver_degenerate_branch_identity (md : Metadata) (r b e d s : ℚ)
    (he0 : 0 < |e|) (heSmall : |e| ≤ 1 / 1000)
    (hdeg : r ≤ 0 ∨ resolved_altitude md ≤ 0) :
    resolve_detection_elevation ⟨r, b, e, d, s⟩ md = (e : ℝ) ∧ (e : ℝ) ≠ 0 := by
  constructor
  · rw [resolve_detection_elevation]
    rw [if_neg (not_lt.mpr heSmall), if_pos hdeg]
  · exact_mod_cast abs_pos.mp he0

/-- C9 witness: a stored elevation of `0.0005` with zero range is
returned unchanged and is not zero. -/
theorem resolver_degenerate_branch_identity_witness :
    resolve_detection_elevation ⟨0, 0, 1 / 2000, 0, 0⟩ [] = ((1 / 2000 : ℚ) : ℝ) ∧
      ((1 / 2000 : ℚ) : ℝ) ≠ 0 :=
  resolver_degenerate_branch_identity [] 0 0 (1 / 2000) 0 0 (by norm_num)
    (by rw [abs_of_pos (by norm_num : (0 : ℚ) < 1 / 2000)]; norm_num)
    (Or.inl le_rfl)

/-- C7: for any detection input (any range, elevation, Doppler) and any
nonnegative area radius, the clamped horizontal range lies in
`[0, area_radius]`; the normalized Doppler is `0` whenever
`max_doppler <= 0` and always lies in `[-1, 1]`; both functions are
total, so no input is rejected. -/
theorem projector_clamps_all_inputs (rng elevation_deg doppler area_radius max_doppler : ℝ)
    (har : 0 ≤ area_radius) :
    (0 ≤ horizontal_range_clamped rng elevation_deg area_radius ∧
      horizontal_range_clamped rng elevation_deg area_radius ≤ area_radius) ∧
    (max_doppler ≤ 0 → normalized_doppler doppler max_doppler = 0) ∧
    -1 ≤ normalized_doppler doppler max_doppler ∧
      normalized_doppler doppler max_doppler ≤ 1 := by
  refine ⟨⟨le_min (le_max_right _ _) har, min_le_right _ _⟩, ?_, ?_, ?_⟩
  · intro h
    rw [normalized_doppler, if_neg (not_lt.mpr h)]
  · rw [normalized_doppler]
    split
    · exact le_max_left _ _
    · norm_num
  · rw [normalized_doppler]
    split
    · exact max_le (by norm_num) (min_le_left _ _)
    · norm_num

/-- C7 witness: a negative range with elevation 89 degrees inside a
5000 m area radius, and a zero Doppler denominator. -/
theorem projector_clamps_all_inputs_witness :
    (0 ≤ horizontal_range_clamped (-5) 89 5000 ∧
      horizontal_range_clamped (-5) 89 5000 ≤ 5000) ∧
    ((0 : ℝ) ≤ 0 → normalized_doppler 3 0 = 0) ∧
    -1 ≤ normalized_doppler 3 0 ∧ normalized_doppler 3 0 ≤ 1 :=
  projector_clamps_all_inputs (-5) 89 3 5000 0 (by norm_num)

end GMTIViz

namespace GMTIViz

/-- Folding `max` over copies of the same value is the identity. -/
theorem foldl_max_replicate (n : ℕ) (a : ℚ) :
    List.foldl max a (List.replicate n a) = a := by
  induction n with
  | zero => rfl
  | succ k ih => rw [List.replicate_succ, List.foldl_cons, max_self, ih]

/-- The capped batch of `overCapRecords` drops the final record. -/
theorem visible_overCap : visible_records overCapRecords = List.replicate 256 recZero := by
  rw [visible_records, overCapRecords]
  exact List.take_left' (List.length_replicate 256 recZero)

/-- On `overCapRecords` the Doppler denominator picks up the Doppler
of the 257th record. -/
theorem doppler_denom_overCap : max_doppler_denom overCapRecords = 100 := by
  rw [max_doppler_denom, overCapRecords, List.map_append, List.map_replicate]
  have h0 : |recZero.doppler| = 0 := by rw [recZero]; norm_num
  have h100 : List.map (fun r => |r.doppler|) [recFast] = [100] := by
    rw [recFast]; norm_num
  rw [h0, h100, show (256 : ℕ) = 255 + 1 from rfl, List.replicate_succ, List.cons_append,
    pyMax, List.foldl_append, foldl_max_replicate, List.foldl_cons, List.foldl_nil]
  norm_num

/-- Over the capped batch of `overCapRecords` the Doppler maximum
would be the 0.5 floor. -/
theorem doppler_denom_capped_overCap :
    max (pyMax ((visible_records overCapRecords).map fun r => |r.doppler|) (1 / 2)) (1 / 2)
      = 1 / 2 := by
  rw [visible_overCap, List.map_replicate]
  have h0 : |recZero.doppler| = 0 := by rw [recZero]; norm_num
  rw [h0, show (256 : ℕ) = 255 + 1 from rfl, List.replicate_succ, pyMax,
    foldl_max_replicate]
  norm_num

/-- C3 counterexample: on a 257-detection list whose only non-zero
Doppler sits in the 257th record, the Doppler denominator the code
computes (100, over the full list) differs from the one the claim
states (0.5, over the capped batch). -/
theorem pipeline_doppler_denom_not_capped :
    max_doppler_denom overCapRecords
      ≠ max (pyMax ((visible_records overCapRecords).map fun r => |r.doppler|) (1 / 2))
          (1 / 2) := by
  rw [doppler_denom_overCap, doppler_denom_capped_overCap]
  norm_num

/-- C3 (amended): the pipeline renders at most the first 256
detections and `max_range = max(1.0, max(range over the capped
batch))`, but `max_doppler = max(0.5, max(|doppler| over the FULL
uncapped detection list))` — the Doppler maximum is taken before the
cap is applied. -/
theorem pipeline_cap_and_denominators (records : List DetRecord) (md : Metadata)
    (mode : ViewMode) :
    (pipeline_positions records md mode).length ≤ 256 ∧
    max_range_denom records
        = max (pyMax ((visible_records records).map fun r => r.range) 1) 1 ∧
    max_doppler_denom records
        = max (pyMax (records.map fun r => |r.doppler|) (1 / 2)) (1 / 2) := by
  refine ⟨?_, rfl, rfl⟩
  simp [pipeline_positions, visible_records]

/-- The pipeline emits one position per record of the capped batch. -/
theorem length_pipeline_positions (records : List DetRecord) (md : Metadata)
    (mode : ViewMode) :
    (pipeline_positions records md mode).length = min 256 records.length := by
  simp [pipeline_positions, visible_records]

/-- The pipeline emits one info entry per record of the capped batch. -/
theorem length_pipeline_infos (records : List DetRecord) (md : Metadata) :
    (pipeline_infos records md).length = min 256 records.length := by
  simp [pipeline_infos, visible_records]

/-- After one `_update_3d_view` pass the sphere and label counts are
zero for an empty detection list and `min 256 c` otherwise. -/
theorem update_3d_view_lengths (s : RenderState) (records : List DetRecord)
    (md : Metadata) (mode : ViewMode) :
    ((update_3d_view s records md mode).1.detection_spheres.length
        = if records.isEmpty then 0 else min 256 records.length) ∧
    ((update_3d_view s records md mode).1.detection_labels.length
        = if records.isEmpty then 0 else min 256 records.length) := by
  rw [update_3d_view]
  by_cases h : records.isEmpty
  · simp [h, clear_detection_spheres]
  · simp [h, update_detection_spheres, clear_detection_spheres,
      length_pipeline_positions, length_pipeline_infos]

/-- With a non-empty detection list, one `_update_3d_view` pass
creates `2 * min 256 c` items and destroys every item previously
live. -/
theorem update_3d_view_ops (s : RenderState) (records : List DetRecord)
    (md : Metadata) (mode : ViewMode) (h : records ≠ []) :
    (update_3d_view s records md mode).2.creates = 2 * min 256 records.length ∧
    (update_3d_view s records md mode).2.destroys
      = s.detection_spheres.length + s.detection_labels.length := by
  have hne : ¬records.isEmpty = true := by simp [List.isEmpty_iff, h]
  rw [update_3d_view, if_neg hne]
  constructor
  · simp [update_detection_spheres, length_pipeline_positions, length_pipeline_infos]
  · simp [update_detection_spheres, clear_detection_spheres]

/-- C4 counterexample: a frame of 257 detections leaves 256 live
markers, not 257 — the live count is capped, so it does not always
equal the frame's detection count. -/
theorem live_count_not_c_over_cap :
    (update_3d_view ⟨[], []⟩ (List.replicate 257 recZero) []
        ViewMode.polar).1.detection_spheres.length ≠ 257 := by
  have h := (update_3d_view_lengths ⟨[], []⟩ (List.replicate 257 recZero) []
    ViewMode.polar).1
  rw [h, show (257 : ℕ) = 256 + 1 from rfl, List.replicate_succ]
  simp only [List.isEmpty_cons, Bool.false_eq_true, if_false, List.length_cons,
    List.length_replicate]
  omega

/-- C4 (amended): for any sequence of frames, after the synchronizer
processes frame `i` (here: the last frame of any processed prefix)
the live marker count equals `min(c_i, 256)`, and an empty-detections
frame always yields live count 0. -/
theorem live_count_after_each_frame (s : RenderState) (pre : List (List DetRecord))
    (f : List DetRecord) (md : Metadata) (mode : ViewMode) :
    (run_frames s (pre ++ [f]) md mode).detection_spheres.length
      = if f.isEmpty then 0 else min 256 f.length := by
  rw [run_frames, List.foldl_append, List.foldl_cons, List.foldl_nil]
  exact (update_3d_view_lengths _ f md mode).1

/-- C2 counterexample: running the synchronizer twice from an empty
state with the identical one-detection frame, metadata and view mode
performs a non-zero number of destroys on the second run (the live
sphere and label are removed and recreated, not updated in place). -/
theorem second_identical_run_destroys :
    (update_3d_view (update_3d_view ⟨[], []⟩ [recZero] [] ViewMode.polar).1
        [recZero] [] ViewMode.polar).2.destroys ≠ 0 := by
  have hops := (update_3d_view_ops (update_3d_view ⟨[], []⟩ [recZero] [] ViewMode.polar).1
    [recZero] [] ViewMode.polar (by simp)).2
  have hlen := update_3d_view_lengths ⟨[], []⟩ [recZero] [] ViewMode.polar
  rw [hops, hlen.1, hlen.2]
  simp only [List.isEmpty_cons, Bool.false_eq_true, if_false, List.length_cons,
    List.length_nil]
  omega

/-- C2 (amended): the synchronizer clears and rebuilds every live
object each tick. Running it twice with identical detections, metadata
and view mode reproduces the identical live-object state, but the
second run performs `2 * min(c, 256)` creates and the same number of
destroys (one marker and one label per ordinal), not zero. -/
theorem sync_rebuilds_every_tick (s : RenderState) (records : List DetRecord)
    (md : Metadata) (mode : ViewMode) (h : records ≠ []) :
    (update_3d_view (update_3d_view s records md mode).1 records md mode).1
        = (update_3d_view s records md mode).1 ∧
    (update_3d_view (update_3d_view s records md mode).1 records md mode).2.creates
        = 2 * min 256 records.length ∧
    (update_3d_view (update_3d_view s records md mode).1 records md mode).2.destroys
        = 2 * min 256 records.length ∧
    (update_3d_view (update_3d_view s records md mode).1 records md mode).2.destroys
        ≠ 0 := by
  have hne : ¬records.isEmpty = true := by simp [List.isEmpty_iff, h]
  have hops := update_3d_view_ops (update_3d_view s records md mode).1 records md mode h
  have hlen := update_3d_view_lengths s records md mode
  have hlen2 : (update_3d_view s records md mode).1.detection_spheres.length
      = min 256 records.length := by rw [hlen.1, if_neg hne]
  have hlen3 : (update_3d_view s records md mode).1.detection_labels.length
      = min 256 records.length := by rw [hlen.2, if_neg hne]
  refine ⟨?_, hops.1, ?_, ?_⟩
  · rw [update_3d_view, update_3d_view, if_neg hne, if_neg hne]
    rfl
  · rw [hops.2, hlen2, hlen3]
    omega
  · rw [hops.2, hlen2, hlen3]
    have : 0 < records.length := List.length_pos.mpr h
    omega

/-- C2 witness: the amended claim evaluated with a single detection
and the concrete 10 km metadata. -/
theorem sync_rebuilds_every_tick_witness :
    (update_3d_view (update_3d_view ⟨[], []⟩ [recZero] mdTen ViewMode.polar).1
        [recZero] mdTen ViewMode.polar).1
        = (update_3d_view ⟨[], []⟩ [recZero] mdTen ViewMode.polar).1 ∧
    (update_3d_view (update_3d_view ⟨[], []⟩ [recZero] mdTen ViewMode.polar).1
        [recZero] mdTen ViewMode.polar).2.creates = 2 * min 256 [recZero].length ∧
    (update_3d_view (update_3d_view ⟨[], []⟩ [recZero] mdTen ViewMode.polar).1
        [recZero] mdTen ViewMode.polar).2.destroys = 2 * min 256 [recZero].length ∧
    (update_3d_view (update_3d_view ⟨[], []⟩ [recZero] mdTen ViewMode.polar).1
        [recZero] mdTen ViewMode.polar).2.destroys ≠ 0 :=
  sync_rebuilds_every_tick ⟨[], []⟩ [recZero] mdTen ViewMode.polar (by simp)

/-- C10: after any 3-D view update (empty or not), and after any
direct synchronizer rebuild or clear, the number of live marker
objects equals the number of live label objects. -/
theorem markers_and_labels_paired (s : RenderState) (records : List DetRecord)
    (md : Metadata) (mode : ViewMode) (positions : List (ℝ × ℝ × ℝ))
    (infos : List DetectionInfo) :
    (update_3d_view s records md mode).1.detection_spheres.length
        = (update_3d_view s records md mode).1.detection_labels.length ∧
    (update_detection_spheres s positions infos).1.detection_spheres.length
        = (update_detection_spheres s positions infos).1.detection_labels.length ∧
    (clear_detection_spheres s).1.detection_spheres.length
        = (clear_detection_spheres s).1.detection_labels.length := by
  refine ⟨?_, ?_, rfl⟩
  · have h := update_3d_view_lengths s records md mode
    rw [h.1, h.2]
  · simp [update_detection_spheres]

end GMTIViz
